import Mathlib

/-!
NeuroVault: shallow embedding and verification.

A shallow embedding of the NeuroVault sources (`neurovault_encryptor.py`,
`neurovault_face_auth.py`) with proofs about the embedded operations.

External libraries (`cryptography.fernet`, `json`, `face_recognition`) are
modelled by small concrete Lean structures that capture exactly the contract
the source relies on; each such model is marked in its doc comment.  The
repository's own code is translated statement by statement.
-/

set_option maxRecDepth 4000

namespace NeuroVault

/-- Encryption keys are opaque byte strings; modelled as naturals with
decidable equality. -/
abbrev Key := Nat

/-- The vault record `{notes, last_modified}` (spec §3 `VaultRecord`;
the dictionaries the source encrypts and decrypts). -/
structure VaultRecord where
  notes : String
  last_modified : String
deriving DecidableEq, Repr

/-- The empty record returned by `load_data` when the file is absent or an
error occurs: `{"notes": "", "last_modified": ""}`. -/
def emptyRecord : VaultRecord := { notes := "", last_modified := "" }

/-- Model of the byte strings produced by the external `json` library:
`json.dumps` is injective on records and `json.loads` inverts it, which the
free constructor captures. -/
inductive Plaintext where
  | json (r : VaultRecord)
deriving DecidableEq, Repr

/-- Model of `json.dumps(data, indent=2)` (external library). -/
def jsonDumps (r : VaultRecord) : Plaintext := Plaintext.json r

/-- Model of `json.loads` (external library): inverts `jsonDumps`. -/
def jsonLoads : Plaintext → VaultRecord
  | Plaintext.json r => r

/-- Errors raised by the embedded operations.  `invalidToken` is
`cryptography.fernet.InvalidToken` (the spec's `IntegrityViolation`);
`cipherMissing` models the `AttributeError` raised when `self.cipher`
is still `None`. -/
inductive VaultError where
  | invalidToken
  | cipherMissing
deriving DecidableEq, Repr

/-- Bytes sitting in a file: either a well-formed Fernet token (recording the
key it was produced under and the plaintext it authenticates) or arbitrary
other bytes (garbage, truncation, tampering), which no key decrypts.  This
models the authenticated-encryption contract of the external `Fernet`
primitive: decryption returns the original plaintext under the producing key
and fails with `InvalidToken` otherwise. -/
inductive VBytes where
  | token (k : Key) (pt : Plaintext)
  | garbage (n : Nat)
deriving DecidableEq, Repr

/-- Model of a `cryptography.fernet.Fernet` cipher object holding one key. -/
structure Fernet where
  key : Key
deriving DecidableEq, Repr

/-- Model of `Fernet.encrypt` (external): produces a token bound to the
cipher's key. -/
def Fernet.encrypt (c : Fernet) (pt : Plaintext) : VBytes :=
  VBytes.token c.key pt

/-- Model of `Fernet.decrypt` (external): returns the original plaintext when
the token was produced under this cipher's key, raises `InvalidToken` on a
foreign-key token or on bytes that are not a token. -/
def Fernet.decrypt (c : Fernet) : VBytes → Except VaultError Plaintext
  | VBytes.token k pt => if k = c.key then Except.ok pt else Except.error VaultError.invalidToken
  | VBytes.garbage _ => Except.error VaultError.invalidToken

/-- On-disk state seen by the encryptor: the key file's content (the key
file holds raw key bytes, so it gets a slot of its own) and every other
path's content. -/
structure DiskState where
  keyFile : Option Key
  files : String → Option VBytes

/-- Write `b` at path `p` (file creation / overwrite). -/
def DiskState.setFile (d : DiskState) (p : String) (b : VBytes) : DiskState :=
  { d with files := fun q => if q = p then some b else d.files q }

/-- The `VaultEncryptor` object: the two configured paths and the cipher,
which starts out `None` in `__init__` and is set by `load_or_generate_key`. -/
structure VaultEncryptor where
  key_file : String
  data_file : String
  cipher : Option Fernet
deriving DecidableEq, Repr

/-- `VaultEncryptor.load_key`: `None` when the key file does not exist,
otherwise the stored bytes. -/
def VaultEncryptor.load_key (_e : VaultEncryptor) (d : DiskState) : Option Key :=
  d.keyFile

/-- `VaultEncryptor.save_key`: writes the key to the key file. -/
def VaultEncryptor.save_key (_e : VaultEncryptor) (d : DiskState) (k : Key) : DiskState :=
  { d with keyFile := some k }

/-- `VaultEncryptor.load_or_generate_key`: load the existing key, or generate
a fresh one (`freshKey` stands for `Fernet.generate_key()`'s randomness),
save it, and initialise the cipher. -/
def VaultEncryptor.load_or_generate_key (e : VaultEncryptor) (d : DiskState)
    (freshKey : Key) : VaultEncryptor × DiskState :=
  match e.load_key d with
  | some k => ({ e with cipher := some { key := k } }, d)
  | none =>
      let key := freshKey
      let d' := e.save_key d key
      ({ e with cipher := some { key := key } }, d')

/-- `VaultEncryptor.__init__`: store the paths, set `cipher = None`, then run
`load_or_generate_key`. -/
def initVaultEncryptor (key_file data_file : String) (d : DiskState)
    (freshKey : Key) : VaultEncryptor × DiskState :=
  VaultEncryptor.load_or_generate_key
    { key_file := key_file, data_file := data_file, cipher := none } d freshKey

/-- `VaultEncryptor.encrypt_data`: `json.dumps` then `self.cipher.encrypt`
(raises if the cipher is uninitialised). -/
def VaultEncryptor.encrypt_data (e : VaultEncryptor) (r : VaultRecord) :
    Except VaultError VBytes :=
  match e.cipher with
  | none => Except.error VaultError.cipherMissing
  | some c => Except.ok (c.encrypt (jsonDumps r))

/-- `VaultEncryptor.decrypt_data`: `self.cipher.decrypt` then `json.loads`
(raises on decryption failure). -/
def VaultEncryptor.decrypt_data (e : VaultEncryptor) (b : VBytes) :
    Except VaultError VaultRecord :=
  match e.cipher with
  | none => Except.error VaultError.cipherMissing
  | some c =>
      match c.decrypt b with
      | Except.ok pt => Except.ok (jsonLoads pt)
      | Except.error err => Except.error err

/-- `VaultEncryptor.save_data`: encrypt and write to the data file,
propagating encryption errors. -/
def VaultEncryptor.save_data (e : VaultEncryptor) (d : DiskState)
    (r : VaultRecord) : Except VaultError DiskState :=
  match e.encrypt_data r with
  | Except.error err => Except.error err
  | Except.ok b => Except.ok (d.setFile e.data_file b)

/-- `VaultEncryptor.load_data`: the empty record when the data file is
absent; otherwise decrypt — and, per the `except` clause at the end of the
source function, also return the empty record when decryption fails. -/
def VaultEncryptor.load_data (e : VaultEncryptor) (d : DiskState) : VaultRecord :=
  match d.files e.data_file with
  | none => emptyRecord
  | some b =>
      match e.decrypt_data b with
      | Except.ok r => r
      | Except.error _ => emptyRecord

/-- A calendar time, for `datetime.now()`. -/
structure DateTime where
  year : Nat
  month : Nat
  day : Nat
  hour : Nat
  minute : Nat
  second : Nat
deriving DecidableEq, Repr

/-- Zero-pad to two digits, as `strftime`'s `%m`, `%d`, `%H`, `%M`, `%S` do. -/
def pad2 (n : Nat) : String :=
  if n < 10 then "0" ++ toString n else toString n

/-- Model of `datetime.strftime("%Y%m%d_%H%M%S")` — note the underscore
between the date and the time, exactly as in the source format string. -/
def timestampStr (t : DateTime) : String :=
  toString t.year ++ pad2 t.month ++ pad2 t.day ++ "_"
    ++ pad2 t.hour ++ pad2 t.minute ++ pad2 t.second

/-- `VaultEncryptor.backup_data`: `False` (no write) when there is no data
file; otherwise copy the ciphertext file to `backup_file`, defaulting to
`f"{self.data_file}.backup_{timestamp}"`. -/
def VaultEncryptor.backup_data (e : VaultEncryptor) (d : DiskState)
    (now : DateTime) (backup_file : Option String) : Bool × DiskState :=
  match d.files e.data_file with
  | none => (false, d)
  | some b =>
      let bf := match backup_file with
        | some f => f
        | none => e.data_file ++ ".backup_" ++ timestampStr now
      (true, d.setFile bf b)

/-- `VaultEncryptor.restore_data`: `False` when the backup file is absent;
read it, try to decrypt (the `except` clause turns a raised `InvalidToken`
into `False` with no state change); only on success copy it over the data
file. -/
def VaultEncryptor.restore_data (e : VaultEncryptor) (d : DiskState)
    (backup_file : String) : Bool × DiskState :=
  match d.files backup_file with
  | none => (false, d)
  | some b =>
      match e.decrypt_data b with
      | Except.error _ => (false, d)
      | Except.ok _ => (true, d.setFile e.data_file b)

/-- `VaultEncryptor.change_encryption_key`, with the sequence of on-disk
states it passes through in execution order: the initial state, the state
after `backup_data`, the state after `save_key` (the new key is persisted
HERE, before the data is re-encrypted), and the state after `save_data`.
`newKey` stands for the generated or supplied new key. -/
def VaultEncryptor.change_encryption_key_states (e : VaultEncryptor)
    (d : DiskState) (now : DateTime) (newKey : Key) : List DiskState :=
  let existing := e.load_data d
  let (_, d1) := e.backup_data d now none
  let e1 := { e with cipher := some { key := newKey } }
  let d2 := e1.save_key d1 newKey
  let d3 := match e1.save_data d2 existing with
    | Except.ok x => x
    | Except.error _ => d2
  [d, d1, d2, d3]

/-- `VaultEncryptor.change_encryption_key`: load under the old key, backup,
switch the cipher to the new key, save the new key, then re-encrypt and save
the data; the `except` clause turns a raised error into `False`, leaving
whatever state had been reached. -/
def VaultEncryptor.change_encryption_key (e : VaultEncryptor) (d : DiskState)
    (now : DateTime) (newKey : Key) : Bool × VaultEncryptor × DiskState :=
  let existing := e.load_data d
  let (_, d1) := e.backup_data d now none
  let e1 := { e with cipher := some { key := newKey } }
  let d2 := e1.save_key d1 newKey
  match e1.save_data d2 existing with
  | Except.ok d3 => (true, e1, d3)
  | Except.error _ => (false, e1, d2)

/-! ## Claims about the encryptor -/

/-- Claim C3: For every (initialised) encryptor configuration and key `k`,
decrypting the result of encrypting a record `r` under `k` with the same
key `k` yields `r`: `decrypt(encrypt(r, k), k) = ok r`. -/
theorem decrypt_encrypt_roundtrip (kf df : String) (k : Key) (r : VaultRecord) :
    (({ key_file := kf, data_file := df, cipher := some { key := k } } :
        VaultEncryptor).encrypt_data r).bind
      ({ key_file := kf, data_file := df, cipher := some { key := k } } :
        VaultEncryptor).decrypt_data = Except.ok r := by
  simp [VaultEncryptor.encrypt_data, VaultEncryptor.decrypt_data, Fernet.encrypt,
    Fernet.decrypt, jsonDumps, jsonLoads, Except.bind]

/-- Claim C7: When no data file exists at the configured path, `load_data`
returns the empty record `{notes:"", last_modified:""}` normally — the
function is total in the model, so no error is raised. -/
theorem load_data_absent_file (e : VaultEncryptor) (d : DiskState)
    (h : d.files e.data_file = none) : e.load_data d = emptyRecord := by
  simp [VaultEncryptor.load_data, h]

/-- Witness for C7: a concrete encryptor over an empty disk. -/
theorem load_data_absent_file_witness :
    ({ key_file := "secret.key", data_file := "vault_data.json",
       cipher := some { key := 0 } } : VaultEncryptor).load_data
      { keyFile := some 0, files := fun _ => none } = emptyRecord :=
  load_data_absent_file _ _ rfl

/-- Claim C1 (code bug, see spec §9): with the data file present but holding a
token under a foreign key — so that decryption fails — `load_data` does NOT
surface the failure: it returns the very empty record the claim says it must
never return, indistinguishable from the first-run case.  The model's return
type `VaultRecord` (no error channel) reflects the source's `except` clause
swallowing the exception. -/
theorem load_data_swallows_integrity_violation :
    (({ key_file := "secret.key", data_file := "vault_data.json",
        cipher := some { key := 0 } } : VaultEncryptor).load_data
      { keyFile := some 0,
        files := fun p => if p = "vault_data.json"
          then some (VBytes.token 1 (Plaintext.json { notes := "n", last_modified := "t" }))
          else none } = emptyRecord)
    ∧ (({ key_file := "secret.key", data_file := "vault_data.json",
          cipher := some { key := 0 } } : VaultEncryptor).decrypt_data
        (VBytes.token 1 (Plaintext.json { notes := "n", last_modified := "t" }))
          = Except.error VaultError.invalidToken) := by
  constructor <;> rfl

/-- Claim C2 (code bug): in `change_encryption_key`, `save_key` runs BEFORE
`save_data`.  Concretely — old key `0`, new key `1`, data file holding a
token under key `0` — the third on-disk state of the execution (after
`save_key`, before the re-encrypted write) already has the new key in the
key file while the data file still holds the old-key ciphertext; the on-disk
key can no longer decrypt it, only the already-overwritten old key can. -/
theorem change_key_persists_new_key_before_reencryption :
    ((({ key_file := "secret.key", data_file := "vault_data.json",
         cipher := some { key := 0 } } : VaultEncryptor).change_encryption_key_states
        { keyFile := some 0,
          files := fun p => if p = "vault_data.json"
            then some (VBytes.token 0 (Plaintext.json { notes := "n", last_modified := "t" }))
            else none }
        { year := 2025, month := 1, day := 1, hour := 12, minute := 0, second := 0 }
        1).getD 2
      { keyFile := none, files := fun _ => none }).keyFile = some 1
    ∧ ((({ key_file := "secret.key", data_file := "vault_data.json",
           cipher := some { key := 0 } } : VaultEncryptor).change_encryption_key_states
        { keyFile := some 0,
          files := fun p => if p = "vault_data.json"
            then some (VBytes.token 0 (Plaintext.json { notes := "n", last_modified := "t" }))
            else none }
        { year := 2025, month := 1, day := 1, hour := 12, minute := 0, second := 0 }
        1).getD 2
      { keyFile := none, files := fun _ => none }).files "vault_data.json"
        = some (VBytes.token 0 (Plaintext.json { notes := "n", last_modified := "t" }))
    ∧ Fernet.decrypt { key := 1 }
        (VBytes.token 0 (Plaintext.json { notes := "n", last_modified := "t" }))
        = Except.error VaultError.invalidToken
    ∧ Fernet.decrypt { key := 0 }
        (VBytes.token 0 (Plaintext.json { notes := "n", last_modified := "t" }))
        = Except.ok (Plaintext.json { notes := "n", last_modified := "t" }) := by
  refine ⟨rfl, ?_, rfl, rfl⟩
  decide

/-- Claim C4: `restore_data` verifies the backup decrypts under the current
key before touching the live file: a missing or undecryptable backup yields
`False` with the entire disk state — in particular the live vault file —
unchanged; only a successfully decrypting backup is copied over the data
file. -/
theorem restore_data_verifies_before_overwrite (e : VaultEncryptor)
    (d : DiskState) (bf : String) :
    (d.files bf = none → e.restore_data d bf = (false, d))
    ∧ (∀ b err, d.files bf = some b → e.decrypt_data b = Except.error err →
        e.restore_data d bf = (false, d))
    ∧ (∀ b r, d.files bf = some b → e.decrypt_data b = Except.ok r →
        e.restore_data d bf = (true, d.setFile e.data_file b)) := by
  refine ⟨fun h => ?_, fun b err hb hd => ?_, fun b r hb hd => ?_⟩ <;>
    simp [VaultEncryptor.restore_data, *]

/-- Witness for C4: restoring a backup file holding non-token garbage fails
and leaves the state untouched. -/
theorem restore_data_verifies_before_overwrite_witness :
    ({ key_file := "secret.key", data_file := "vault_data.json",
       cipher := some { key := 0 } } : VaultEncryptor).restore_data
      { keyFile := some 0,
        files := fun p => if p = "vault.bak" then some (VBytes.garbage 7) else none }
      "vault.bak"
      = (false,
        { keyFile := some 0,
          files := fun p => if p = "vault.bak" then some (VBytes.garbage 7) else none }) :=
  (restore_data_verifies_before_overwrite _ _ _).2.1
    (VBytes.garbage 7) VaultError.invalidToken rfl rfl

/-- Does `name` have the exact shape `orig ++ ".backup_" ++ ts` with `ts`
fourteen digits (`YYYYMMDDHHMMSS`), as claim C9 states? -/
def isClaimedBackupForm (orig name : String) : Bool :=
  (name.take (orig.length + 8) == orig ++ ".backup_")
    && (name.drop (orig.length + 8)).length == 14
    && (name.drop (orig.length + 8)).toList.all Char.isDigit

/-- Claim C9 counterexample: At 2025-01-01 12:00:00 the backup is written to
`vault_data.json.backup_20250101_120000` — fifteen characters after
`.backup_`, with an underscore between date and time — not to the claimed
fourteen-digit form `vault_data.json.backup_20250101120000`, which is not
created at all. -/
theorem backup_name_not_fourteen_digit_form :
    (({ key_file := "secret.key", data_file := "vault_data.json",
        cipher := some { key := 0 } } : VaultEncryptor).backup_data
      { keyFile := some 0,
        files := fun p => if p = "vault_data.json"
          then some (VBytes.token 0 (Plaintext.json { notes := "n", last_modified := "t" }))
          else none }
      { year := 2025, month := 1, day := 1, hour := 12, minute := 0, second := 0 }
      none).1 = true
    ∧ (({ key_file := "secret.key", data_file := "vault_data.json",
          cipher := some { key := 0 } } : VaultEncryptor).backup_data
        { keyFile := some 0,
          files := fun p => if p = "vault_data.json"
            then some (VBytes.token 0 (Plaintext.json { notes := "n", last_modified := "t" }))
            else none }
        { year := 2025, month := 1, day := 1, hour := 12, minute := 0, second := 0 }
        none).2.files "vault_data.json.backup_20250101_120000"
        = some (VBytes.token 0 (Plaintext.json { notes := "n", last_modified := "t" }))
    ∧ isClaimedBackupForm "vault_data.json" "vault_data.json.backup_20250101_120000" = false
    ∧ (({ key_file := "secret.key", data_file := "vault_data.json",
          cipher := some { key := 0 } } : VaultEncryptor).backup_data
        { keyFile := some 0,
          files := fun p => if p = "vault_data.json"
            then some (VBytes.token 0 (Plaintext.json { notes := "n", last_modified := "t" }))
            else none }
        { year := 2025, month := 1, day := 1, hour := 12, minute := 0, second := 0 }
        none).2.files "vault_data.json.backup_20250101120000" = none := by
  refine ⟨rfl, ?_, by decide, ?_⟩ <;> decide

/-- Claim C9, amended: `backup_data` returns `False` and writes nothing when
no data file exists; when it exists and no target is given, it copies the
ciphertext unchanged to `<original>.backup_<YYYYMMDD_HHMMSS>` (underscore
between date and time) and returns `True`. -/
theorem backup_data_spec (e : VaultEncryptor) (d : DiskState) (now : DateTime) :
    (d.files e.data_file = none → e.backup_data d now none = (false, d))
    ∧ (∀ b, d.files e.data_file = some b →
        e.backup_data d now none =
          (true, d.setFile (e.data_file ++ ".backup_" ++ timestampStr now) b)) := by
  refine ⟨fun h => ?_, fun b hb => ?_⟩ <;> simp [VaultEncryptor.backup_data, *]

/-- Witness for the amended C9, at the same concrete state and time as the
counterexample. -/
theorem backup_data_spec_witness :
    ({ key_file := "secret.key", data_file := "vault_data.json",
       cipher := some { key := 0 } } : VaultEncryptor).backup_data
      { keyFile := some 0,
        files := fun p => if p = "vault_data.json"
          then some (VBytes.token 0 (Plaintext.json { notes := "n", last_modified := "t" }))
          else none }
      { year := 2025, month := 1, day := 1, hour := 12, minute := 0, second := 0 }
      none
      = (true,
        DiskState.setFile
          { keyFile := some 0,
            files := fun p => if p = "vault_data.json"
              then some (VBytes.token 0 (Plaintext.json { notes := "n", last_modified := "t" }))
              else none }
          ("vault_data.json" ++ ".backup_"
            ++ timestampStr { year := 2025, month := 1, day := 1, hour := 12, minute := 0, second := 0 })
          (VBytes.token 0 (Plaintext.json { notes := "n", last_modified := "t" }))) :=
  (backup_data_spec _ _ _).2 _ rfl

/-- Claim C10: Constructing the encryptor with no key file on disk surfaces no
`KeyNotFound`: `load_key` returns `None`, a fresh key is generated, saved to
the key file, and the cipher is initialised with it; the other files are
untouched, and a pre-existing ciphertext under a different, now-absent key
has become undecryptable (`load_data` falls back to the empty record). -/
theorem init_generates_key_when_absent (kf df : String) (d : DiskState)
    (fresh : Key) (h : d.keyFile = none) :
    (initVaultEncryptor kf df d fresh).1.cipher = some { key := fresh }
    ∧ (initVaultEncryptor kf df d fresh).2.keyFile = some fresh
    ∧ (initVaultEncryptor kf df d fresh).2.files = d.files
    ∧ (∀ k0 pt, d.files df = some (VBytes.token k0 pt) → k0 ≠ fresh →
        (initVaultEncryptor kf df d fresh).1.load_data
          (initVaultEncryptor kf df d fresh).2 = emptyRecord) := by
  refine ⟨?_, ?_, ?_, fun k0 pt hf hne => ?_⟩ <;>
    simp [initVaultEncryptor, VaultEncryptor.load_or_generate_key,
      VaultEncryptor.load_key, VaultEncryptor.save_key, VaultEncryptor.load_data,
      VaultEncryptor.decrypt_data, Fernet.decrypt, h, *]

/-- Witness for C10: no key file, a stale ciphertext under key `0`, fresh
key `1`. -/
theorem init_generates_key_when_absent_witness :
    (initVaultEncryptor "secret.key" "vault_data.json"
      { keyFile := none,
        files := fun p => if p = "vault_data.json"
          then some (VBytes.token 0 (Plaintext.json { notes := "n", last_modified := "t" }))
          else none } 1).1.cipher = some { key := 1 }
    ∧ (initVaultEncryptor "secret.key" "vault_data.json"
        { keyFile := none,
          files := fun p => if p = "vault_data.json"
            then some (VBytes.token 0 (Plaintext.json { notes := "n", last_modified := "t" }))
            else none } 1).2.keyFile = some 1
    ∧ (initVaultEncryptor "secret.key" "vault_data.json"
        { keyFile := none,
          files := fun p => if p = "vault_data.json"
            then some (VBytes.token 0 (Plaintext.json { notes := "n", last_modified := "t" }))
            else none } 1).1.load_data
        (initVaultEncryptor "secret.key" "vault_data.json"
          { keyFile := none,
            files := fun p => if p = "vault_data.json"
              then some (VBytes.token 0 (Plaintext.json { notes := "n", last_modified := "t" }))
              else none } 1).2 = emptyRecord := by
  have h := init_generates_key_when_absent "secret.key" "vault_data.json"
    { keyFile := none,
      files := fun p => if p = "vault_data.json"
        then some (VBytes.token 0 (Plaintext.json { notes := "n", last_modified := "t" }))
        else none } 1 rfl
  exact ⟨h.1, h.2.1,
    h.2.2.2 0 (Plaintext.json { notes := "n", last_modified := "t" }) rfl (by decide)⟩

/-! ## Key derivation (`derive_key_from_password`) -/

/-- Model of the external `PBKDF2HMAC(SHA256, length, salt, iterations)`
`.derive(password)` primitive: a deliberately slow, deterministic function of
passphrase, salt, iteration count and output length.  Its internal structure
is irrelevant to the claims; it is represented by a fixed concrete mixing
function producing `length` bytes. -/
def pbkdf2_sha256 (password : String) (salt : List Nat)
    (iterations length : Nat) : List Nat :=
  (List.range length).map fun i =>
    (password.toList.foldl (fun a c => a * 31 + c.toNat)
        (salt.foldl (fun a b => a * 31 + b) 0) + iterations + i) % 256

/-- The URL-safe base64 alphabet. -/
def b64alphabet : List Char :=
  "ABCDEFGHIJKLMNOPQRSTUVWXYZabcdefghijklmnopqrstuvwxyz0123456789-_".toList

/-- Model of `base64.urlsafe_b64encode` (external): standard base64 over the
URL-safe alphabet, with `=` padding. -/
def urlsafe_b64encode : List Nat → List Char
  | [] => []
  | [a] => [b64alphabet.getD (a / 4) 'A', b64alphabet.getD (a % 4 * 16) 'A', '=', '=']
  | [a, b] => [b64alphabet.getD (a / 4) 'A', b64alphabet.getD (a % 4 * 16 + b / 16) 'A',
      b64alphabet.getD (b % 16 * 4) 'A', '=']
  | a :: b :: c :: rest =>
      [b64alphabet.getD (a / 4) 'A', b64alphabet.getD (a % 4 * 16 + b / 16) 'A',
        b64alphabet.getD (b % 16 * 4 + c / 64) 'A', b64alphabet.getD (c % 64) 'A']
        ++ urlsafe_b64encode rest

/-- `VaultEncryptor.derive_key_from_password`: when `salt` is `None` a fresh
16-byte salt is drawn from `os.urandom` (the `entropy` argument models that
draw); then PBKDF2-HMAC-SHA256 with 100000 iterations and 32-byte output,
base64-encoded; returns `(key, salt)`. -/
def derive_key_from_password (password : String) (salt : Option (List Nat))
    (entropy : List Nat) : List Char × List Nat :=
  let s := match salt with
    | none => entropy
    | some s => s
  let key := urlsafe_b64encode (pbkdf2_sha256 password s 100000 32)
  (key, s)

/-- Claim C8: With the salt supplied, key derivation consumes no randomness:
any two invocations — modelled by two independent draws of the entropy
stream — with the same passphrase and salt produce the same key (and return
the same salt). -/
theorem derive_key_deterministic (p : String) (s : List Nat)
    (entropy1 entropy2 : List Nat) :
    derive_key_from_password p (some s) entropy1
      = derive_key_from_password p (some s) entropy2 := rfl

/-! ## Face authentication -/

/-- Squared Euclidean distance between two embedding vectors.  The source's
`face_recognition.face_distance` computes the Euclidean norm and compares it
to the tolerance; since both sides are nonnegative, `dist ≤ tol` holds
exactly when `dist² ≤ tol²`, which keeps the model inside `ℚ`. -/
def face_distance_sq (a b : List ℚ) : ℚ :=
  (List.zipWith (fun x y => (x - y) ^ 2) a b).sum

/-- The `FaceAuthenticator` state `verify_face` reads: the reference
encodings loaded at startup and the match tolerance (default 0.6). -/
structure FaceAuthenticator where
  known_face_encodings : List (List ℚ)
  tolerance : ℚ

/-- `FaceAuthenticator.verify_face`: `False` when the reference set or the
detected-encodings argument is empty/`None`; otherwise `True` exactly when
some detected encoding is within tolerance of some reference encoding
(`face_distances <= self.tolerance`, any). -/
def FaceAuthenticator.verify_face (auth : FaceAuthenticator)
    (face_encodings : Option (List (List ℚ))) : Bool :=
  match face_encodings with
  | none => false
  | some encs =>
      if auth.known_face_encodings.isEmpty || encs.isEmpty then false
      else encs.any fun fe => auth.known_face_encodings.any fun known =>
        decide (face_distance_sq known fe ≤ auth.tolerance ^ 2)

/-- Claim C5: The face-match decision is `True` iff some reference embedding
is within Euclidean distance `tolerance` of the observed embedding (stated
on squares: `dist² ≤ tol²`, equivalent for the nonnegative distance, so a
distance exactly equal to the tolerance matches and a strictly greater one
does not); a missing observed embedding or an empty reference set yields
`False`, returned normally. -/
theorem verify_face_matches_iff (auth : FaceAuthenticator) (obs : List ℚ) :
    (auth.verify_face (some [obs]) = true ↔
      ∃ ref ∈ auth.known_face_encodings,
        face_distance_sq ref obs ≤ auth.tolerance ^ 2)
    ∧ auth.verify_face none = false
    ∧ (∀ encs, auth.known_face_encodings = [] →
        auth.verify_face (some encs) = false) := by
  refine ⟨?_, rfl, fun encs h => by simp [FaceAuthenticator.verify_face, h]⟩
  rcases h : auth.known_face_encodings with _ | ⟨a, l⟩
  · simp [FaceAuthenticator.verify_face, h]
  · simp [FaceAuthenticator.verify_face, h, List.any_eq_true]

/-- Witness for C5: one reference embedding at distance exactly the
tolerance from the observed embedding (distance 5, tolerance 5) matches. -/
theorem verify_face_matches_iff_witness :
    FaceAuthenticator.verify_face
      { known_face_encodings := [[(3 : ℚ), 4]], tolerance := 5 }
      (some [[(0 : ℚ), 0]]) = true :=
  (verify_face_matches_iff
      { known_face_encodings := [[(3 : ℚ), 4]], tolerance := 5 } [(0 : ℚ), 0]).1.mpr
    ⟨[(3 : ℚ), 4], by simp, by norm_num [face_distance_sq]⟩

/-- One frame's outcome inside the `authenticate` loop: the camera produced
no frame (`ret == False`, `continue`), no face was detected, the detected
face verified, or it did not. -/
inductive FrameResult where
  | noFrame
  | noFace
  | faceMatch
  | faceMismatch
deriving DecidableEq, Repr

/-- The loop-local counters of `authenticate`. -/
structure AuthLoopState where
  attempts : Nat
  consecutive_matches : Nat
deriving DecidableEq, Repr

/-- The body of the `authenticate` loop for one frame, translated from the
source: a match increments `consecutive_matches` and succeeds once it
reaches `required_matches`; a mismatch zeroes `consecutive_matches` and
increments `attempts`; no detected face zeroes `consecutive_matches` only;
no frame changes nothing.  The returned `Bool` is `True` exactly when the
loop returns `(True, "Authentication successful")` on this frame; failure is
decided outside the body by the attempts guard and the timeout check. -/
def processFrame (required_matches : Nat) (s : AuthLoopState) :
    FrameResult → AuthLoopState × Bool
  | FrameResult.noFrame => (s, false)
  | FrameResult.noFace => ({ s with consecutive_matches := 0 }, false)
  | FrameResult.faceMatch =>
      let c := s.consecutive_matches + 1
      ({ s with consecutive_matches := c }, decide (required_matches ≤ c))
  | FrameResult.faceMismatch =>
      ({ attempts := s.attempts + 1, consecutive_matches := 0 }, false)

/-- Claim C6: Processing a NO_FACE frame resets `consecutive_matches` to `0`,
leaves `attempts` unchanged, and does not terminate the session (the success
flag is `False`, and since `attempts` is unchanged the attempts guard and
timeout check are unaffected). -/
theorem processFrame_noFace (required_matches : Nat) (s : AuthLoopState) :
    processFrame required_matches s FrameResult.noFace
      = ({ attempts := s.attempts, consecutive_matches := 0 }, false) := rfl

end NeuroVault
